import Mathlib

/-
Shallow embedding of the file-converter bot (src/main.py, src/utils/converters.py,
src/utils/languages.py).  Pure string manipulation is modelled over `List Char`
so that every definition evaluates inside the kernel; the filesystem is a list
of existing paths; the external libraries (pdf2docx, python-docx, PIL, pydub,
moviepy) are represented by boolean success flags, since only the control flow
around them is specified.
-/

/-- ASCII lower-casing of one character, as `str.lower()` acts on the letters
appearing in extension strings. -/
def lowerChar (c : Char) : Char := if c.isUpper then Char.ofNat (c.toNat + 32) else c

/-- ASCII upper-casing of one character, as `str.upper()` acts on the letters
appearing in extension strings. -/
def upperChar (c : Char) : Char := if c.isLower then Char.ofNat (c.toNat - 32) else c

/-- `s.lower()` on extension strings. -/
def lowerString (s : String) : String := ⟨s.data.map lowerChar⟩

/-- `s.upper()` on extension strings. -/
def upperString (s : String) : String := ⟨s.data.map upperChar⟩

/-- Fuel-indexed worker for `str.replace`: replaces every non-overlapping
occurrence of `pat`, scanning left to right. -/
def replaceFuel (pat rep : List Char) : Nat → List Char → List Char
  | 0, l => l
  | _ + 1, [] => []
  | n + 1, x :: xs =>
    if pat.isPrefixOf (x :: xs) then rep ++ replaceFuel pat rep n (List.drop (pat.length - 1) xs)
    else x :: replaceFuel pat rep n xs

/-- Python `s.replace(pat, rep)` (all occurrences). -/
def replaceStr (s pat rep : String) : String := ⟨replaceFuel pat.data rep.data s.data.length s.data⟩

/-- Split a character list at every occurrence of the separator `c`. -/
def splitChar (c : Char) : List Char → List (List Char)
  | [] => [[]]
  | x :: xs =>
    if x = c then [] :: splitChar c xs
    else match splitChar c xs with
      | [] => [[x]]
      | h :: t => (x :: h) :: t

/-- The component after the last occurrence of `c` (`os.path.basename` for `c = '/'`). -/
def lastPart (c : Char) (l : List Char) : List Char :=
  (splitChar c l).getLastD l

/-- Drop the part of a file name starting at its last dot
(`os.path.splitext(...)[0]` for names carrying a proper extension). -/
def dropExt (l : List Char) : List Char :=
  let r := l.reverse
  if ('.' : Char) ∈ r then ((r.dropWhile (fun ch => ch ≠ '.')).drop 1).reverse else l

/-- `os.path.splitext(os.path.basename(p))[0]`, the `base_name` of
`FileConverter.convert_file` (src/utils/converters.py line 74). -/
def baseNameNoExt (p : String) : String := ⟨dropExt (lastPart '/' p.data)⟩

/-- The output path generated by `convert_file`
(src/utils/converters.py line 75): `temp/{base_name}_converted.{target}`. -/
def outputPathFor (inputPath targetFormat : String) : String :=
  "temp/" ++ baseNameNoExt inputPath ++ "_converted." ++ targetFormat

/-- The input path generated by the bot handlers
(src/main.py lines 375 and 432): `temp/input_{file_id}.{source}`. -/
def inputPathFor (fileId sourceFormat : String) : String :=
  "temp/input_" ++ fileId ++ "." ++ sourceFormat

/-- The `base_matrix` of `get_conversion_matrix` (src/utils/converters.py
lines 28-39), in source order. -/
def conversionMatrixBase : List (String × List String) :=
  [ (".pdf", ["docx", "txt"]),
    (".docx", ["pdf", "txt"]),
    (".txt", ["docx"]),
    (".jpg", ["png", "webp"]),
    (".jpeg", ["png", "webp"]),
    (".png", ["jpg", "webp"]),
    (".webp", ["jpg", "png"]),
    (".mp3", ["wav", "ogg"]),
    (".wav", ["mp3", "ogg"]),
    (".ogg", ["mp3", "wav"]) ]

/-- `get_conversion_matrix` (src/utils/converters.py lines 27-42): the base
matrix, plus the `.mp4` entry when moviepy imported successfully. -/
def conversionMatrix (moviepyAvailable : Bool) : List (String × List String) :=
  conversionMatrixBase ++ (if moviepyAvailable then [(".mp4", ["mp3"])] else [])

/-- `get_supported_conversions` (src/utils/converters.py lines 46-48):
`CONVERSION_MATRIX.get(file_extension.lower(), [])`. -/
def getSupportedConversions (moviepyAvailable : Bool) (fileExtension : String) : List String :=
  (((conversionMatrix moviepyAvailable).lookup (lowerString fileExtension)).getD [])

/-- Success flags for the external conversion libraries: each flag states that
the corresponding library call returns normally instead of raising. -/
structure ConvEnv where
  pdfConvertOk : Bool
  docxReadOk : Bool
  txtOk : Bool
  imageOk : Bool
  audioOk : Bool
  moviepyAvailable : Bool
  videoOpenOk : Bool
  videoHasAudio : Bool
deriving DecidableEq

/-- Environment in which every external library call succeeds. -/
def allOk : ConvEnv := ⟨true, true, true, true, true, true, true, true⟩

/-- The route taken by the dispatch chain of `convert_file`
(src/utils/converters.py lines 78-92): one constructor per `_convert_*` method. -/
inductive Route where
  | pdfRoute
  | docxRoute
  | txtDocxRoute
  | imageRoute
  | audioRoute
  | videoRoute
deriving DecidableEq

/-- The if/elif dispatch chain of `convert_file` (src/utils/converters.py
lines 78-92), returning which `_convert_*` method is invoked, `none` for the
final `else` branch. -/
def route (sourceFormat targetFormat : String) : Option Route :=
  if sourceFormat = "pdf" ∧ (targetFormat = "docx" ∨ targetFormat = "txt") then some .pdfRoute
  else if sourceFormat = "docx" ∧ (targetFormat = "pdf" ∨ targetFormat = "txt") then some .docxRoute
  else if sourceFormat = "txt" ∧ targetFormat = "docx" then some .txtDocxRoute
  else if (sourceFormat = "jpg" ∨ sourceFormat = "jpeg" ∨ sourceFormat = "png" ∨ sourceFormat = "webp")
          ∧ (targetFormat = "jpg" ∨ targetFormat = "png" ∨ targetFormat = "webp") then some .imageRoute
  else if (sourceFormat = "mp3" ∨ sourceFormat = "wav" ∨ sourceFormat = "ogg")
          ∧ (targetFormat = "mp3" ∨ targetFormat = "wav" ∨ targetFormat = "ogg") then some .audioRoute
  else if sourceFormat = "mp4" ∧ targetFormat = "mp3" then some .videoRoute
  else none

/-- The final line of every `_convert_*` method:
`return output_path if os.path.exists(output_path) else None`. -/
def finishCheck (fs : List String) (output : String) : Option String × List String :=
  (if output ∈ fs then some output else none, fs)

/-- `FileConverter._convert_pdf` (src/utils/converters.py lines 98-127).
For target `txt` it is the two-stage pipeline: pdf2docx writes the
intermediate `_temp.docx`, python-docx extracts the text, and the intermediate
is removed only after both stages succeed; an exception is caught and mapped
to `None`. -/
def convertPdf (e : ConvEnv) (fs : List String) (output targetFormat : String) :
    Option String × List String :=
  if targetFormat = "docx" then
    if e.pdfConvertOk then finishCheck (output :: fs) output else (none, fs)
  else if targetFormat = "txt" then
    if e.pdfConvertOk then
      let tempDocx := replaceStr output ".txt" "_temp.docx"
      if e.docxReadOk then
        finishCheck ((output :: tempDocx :: fs).erase tempDocx) output
      else (none, tempDocx :: fs)
    else (none, fs)
  else finishCheck fs output

/-- `FileConverter._convert_docx` (src/utils/converters.py lines 129-193): both
the `txt` branch and the `pdf` branch (reportlab or the text fallback) write
the output once the input document was read. -/
def convertDocx (e : ConvEnv) (fs : List String) (output targetFormat : String) :
    Option String × List String :=
  if targetFormat = "txt" then
    if e.docxReadOk then finishCheck (output :: fs) output else (none, fs)
  else if targetFormat = "pdf" then
    if e.docxReadOk then finishCheck (output :: fs) output else (none, fs)
  else finishCheck fs output

/-- `FileConverter._convert_txt_to_docx` (src/utils/converters.py lines 195-216). -/
def convertTxtToDocx (e : ConvEnv) (fs : List String) (output : String) :
    Option String × List String :=
  if e.txtOk then finishCheck (output :: fs) output else (none, fs)

/-- `FileConverter._convert_image` (src/utils/converters.py lines 218-238):
the save writes the output for every routed target. -/
def convertImage (e : ConvEnv) (fs : List String) (output : String) :
    Option String × List String :=
  if e.imageOk then finishCheck (output :: fs) output else (none, fs)

/-- `FileConverter._convert_audio` (src/utils/converters.py lines 240-257):
the export only runs for the three recognised targets. -/
def convertAudio (e : ConvEnv) (fs : List String) (output targetFormat : String) :
    Option String × List String :=
  if e.audioOk then
    if targetFormat = "mp3" ∨ targetFormat = "wav" ∨ targetFormat = "ogg" then
      finishCheck (output :: fs) output
    else finishCheck fs output
  else (none, fs)

/-- `FileConverter._convert_video_to_audio` (src/utils/converters.py
lines 259-279): fails without writing when moviepy is missing, the clip cannot
be opened, or the video has no audio track. -/
def convertVideoToAudio (e : ConvEnv) (fs : List String) (output : String) :
    Option String × List String :=
  if e.moviepyAvailable = false then (none, fs)
  else if e.videoOpenOk = false then (none, fs)
  else if e.videoHasAudio then finishCheck (output :: fs) output
  else (none, fs)

/-- Invoke the `_convert_*` method selected by the dispatch chain. -/
def runRoute (e : ConvEnv) (r : Route) (fs : List String) (output targetFormat : String) :
    Option String × List String :=
  match r with
  | .pdfRoute => convertPdf e fs output targetFormat
  | .docxRoute => convertDocx e fs output targetFormat
  | .txtDocxRoute => convertTxtToDocx e fs output
  | .imageRoute => convertImage e fs output
  | .audioRoute => convertAudio e fs output targetFormat
  | .videoRoute => convertVideoToAudio e fs output

/-- Result of one `convert_file` call: the returned value, the filesystem
afterwards, and which `_convert_*` methods were invoked. -/
structure ConvResult where
  output : Option String
  fs : List String
  invoked : List Route
deriving DecidableEq

/-- `FileConverter.convert_file` (src/utils/converters.py lines 67-96): builds
the deterministic output path, dispatches on the format pair, and returns
`None` from the final `else` branch without invoking any conversion method;
every exception raised inside is caught and mapped to `None`. -/
def convertFile (e : ConvEnv) (fs : List String) (inputPath sourceFormat targetFormat : String) :
    ConvResult :=
  let outPath := outputPathFor inputPath targetFormat
  match route sourceFormat targetFormat with
  | none => ⟨none, fs, []⟩
  | some r =>
    ⟨(runRoute e r fs outPath targetFormat).1, (runRoute e r fs outPath targetFormat).2, [r]⟩

/-- The keys of `LANGUAGES` (src/utils/languages.py lines 6-120). -/
def supportedLangs : List String := ["uz", "en", "ru"]

/-- The per-user `context.user_data` dictionary as the bot reads and writes it:
every field models one key, `none` / `false` standing for an absent key
(matching the `.get` defaults used in src/main.py). -/
structure UserData where
  language : Option String := none
  languageEverSet : Bool := false
  selectedFileType : Option String := none
  targetFormat : Option String := none
  photoFileId : Option String := none
  audioFileId : Option String := none
  audioSourceFormat : Option String := none
  videoFileId : Option String := none
  documentFileId : Option String := none
  documentFileName : Option String := none
deriving DecidableEq

/-- `context.user_data.clear()`: every key removed, so every later `.get`
returns its default. -/
def clearedUserData : UserData := {}

/-- A user who has never interacted with the bot (lazily created empty dict). -/
def freshUser : UserData := {}

/-- `get_user_language` (src/utils/languages.py lines 134-136):
`context.user_data.get('language', None)`. -/
def getUserLanguage (u : UserData) : Option String := u.language

/-- `set_user_language` (src/utils/languages.py lines 138-141): stores the
code only when it is a key of `LANGUAGES`. -/
def setUserLanguage (u : UserData) (lang : String) : UserData :=
  if lang ∈ supportedLangs then { u with language := some lang } else u

/-- `get_text`'s language fallback (src/utils/languages.py line 124) combined
with the `start` fallback (src/main.py lines 42-43): any missing or
unsupported code renders as English. -/
def effectiveLang (u : UserData) : String :=
  match u.language with
  | some l => if l ∈ supportedLangs then l else "en"
  | none => "en"

/-- The reply rendered to the user by the menu handlers, identified by the
`callback_data` of the buttons offered. -/
inductive Reply where
  | langPrompt (optionButtons : List String)
  | mainMenu (lang : String) (buttons : List String)
deriving DecidableEq

/-- The three buttons of `show_language_selection` (src/main.py lines 63-67). -/
def langButtons : List String := ["lang_uz", "lang_en", "lang_ru"]

/-- The five buttons of the main menu (src/main.py lines 48-54 and 245-251). -/
def menuButtons : List String :=
  ["menu_documents", "menu_images", "menu_audio", "menu_video", "menu_direct"]

/-- The `/start` handler (src/main.py lines 29-57): reads
`user_data.get('language_ever_set', False)` and shows the language selection
whenever that flag is false, otherwise the main menu in the effective
language.  No code in the repository ever writes `'language_ever_set'`. -/
def startHandler (u : UserData) : Reply :=
  if u.languageEverSet = false then .langPrompt langButtons
  else .mainMenu (effectiveLang u) menuButtons

/-- `start_menu` (src/main.py lines 240-257): renders the main menu. -/
def startMenu (u : UserData) : Reply := .mainMenu (effectiveLang u) menuButtons

/-- The `lang_` branch of `handle_menu` (src/main.py lines 175-180): strips the
prefix `lang_` from the callback data, stores the language, and renders the
main menu. -/
def handleLangCallback (u : UserData) (callbackData : String) : UserData × Reply :=
  let code := replaceStr callbackData "lang_" ""
  let u2 := setUserLanguage u code
  (u2, startMenu u2)

/-- Success flags for the transport and converter steps of one conversion
request as seen from the bot handler. -/
structure BotEnv where
  getFileOk : Bool
  downloadOk : Bool
  convertOutput : Bool
  deliverOk : Bool
deriving DecidableEq

/-- Observable outcome of one run of the conversion request handler: the
user-data dictionary afterwards, the temp files the handler created, the
files it passed to `cleanup_temp_files`, and whether an exception escaped. -/
structure HandlerResult where
  userData : UserData
  created : List String
  cleaned : List String
  escaped : Bool
deriving DecidableEq

/-- The download/convert/deliver/cleanup core shared verbatim by
`handle_conversion` (src/main.py lines 367-419) and `convert_file_now`
(src/main.py lines 423-473):
* `get_file` fails: the `except` block runs with no path variable bound yet;
* `download_to_drive` fails: `input_path` is bound, so the `except` block
  passes it to `cleanup_temp_files`;
* `convert_file` returns `None` (or the path is missing): the handler notifies
  the user and returns at once — no cleanup call, no `clear()`;
* `send_document` fails: the `except` block cleans input and output;
* success: both temp files are cleaned and `user_data.clear()` runs.
Every branch is inside `try/except Exception`, so nothing escapes. -/
def handleConversionCore (e : BotEnv) (u : UserData) (fileId sourceFormat targetFormat : String) :
    HandlerResult :=
  let input := inputPathFor fileId sourceFormat
  if e.getFileOk = false then ⟨u, [], [], false⟩
  else if e.downloadOk = false then ⟨u, [], [input], false⟩
  else
    let output := outputPathFor input targetFormat
    if e.convertOutput = false then ⟨u, [input], [], false⟩
    else if e.deliverOk = false then ⟨u, [input, output], [input, output], false⟩
    else ⟨clearedUserData, [input, output], [input, output], false⟩

/-- The PIL image modes distinguished by `_convert_image`
(src/utils/converters.py line 223). -/
inductive ImgMode where
  | rgb
  | rgba
  | la
  | pal
  | lum
deriving DecidableEq

/-- Modes that carry transparency information: an explicit alpha channel
(`RGBA`, `LA`) or palette transparency (`P`). -/
def carriesTransparency : ImgMode → Bool
  | .rgba => true
  | .la => true
  | .pal => true
  | _ => false

/-- What `_convert_image` does before saving: whether the image was composited
onto the white background, whether the paste used the image's alpha channel as
the mask, and the format string passed to `save`. -/
structure SavePlan where
  flattenedOnWhite : Bool
  alphaMaskUsed : Bool
  saveFormat : String
deriving DecidableEq

/-- `FileConverter._convert_image` (src/utils/converters.py lines 218-238):
for a `jpg`/`jpeg` target and mode in `('RGBA', 'LA', 'P')` a white RGB
background is created, a `P` image is first converted to `RGBA`, and the paste
mask is `img.split()[-1]` only when the (possibly converted) mode is `RGBA`,
else `None`; other targets are saved as-is with the upper-cased format name. -/
def convertImagePlan (mode : ImgMode) (targetFormat : String) : SavePlan :=
  if (lowerString targetFormat = "jpg" ∨ lowerString targetFormat = "jpeg")
      ∧ (mode = .rgba ∨ mode = .la ∨ mode = .pal) then
    let mode2 := if mode = .pal then ImgMode.rgba else mode
    { flattenedOnWhite := true
      alphaMaskUsed := if mode2 = ImgMode.rgba then true else false
      saveFormat := "JPEG" }
  else
    { flattenedOnWhite := false
      alphaMaskUsed := false
      saveFormat :=
        if lowerString targetFormat = "jpg" ∨ lowerString targetFormat = "jpeg" then "JPEG"
        else upperString targetFormat }

/-- A session as it looks mid-flow: a stored language and a selected
source/target pair (the fixture for the session-clearing claims). -/
def sessionBefore : UserData :=
  { language := some "en", selectedFileType := some "pdf", targetFormat := some "docx" }

theorem lookupGetDNilIff (k : String) (l : List (String × List String))
    (hne : ∀ p ∈ l, p.2 ≠ []) :
    ((l.lookup k).getD [] = [] ↔ ¬ ∃ p ∈ l, k = p.1) := by
  induction l with
  | nil => simp
  | cons a rest ih =>
    obtain ⟨ka, vb⟩ := a
    by_cases hk : k = ka
    · subst hk
      have hb : vb ≠ [] := hne (k, vb) (List.mem_cons_self _ _)
      simp [List.lookup, hb]
    · have hbeq : (k == ka) = false := by simpa using hk
      have ihr := ih (fun p hp => hne p (List.mem_cons_of_mem _ hp))
      simp only [List.lookup, hbeq]
      rw [ihr]
      constructor
      · rintro h ⟨p, hp, hkp⟩
        rcases List.mem_cons.mp hp with rfl | hp2
        · exact hk hkp
        · exact h ⟨p, hp2, hkp⟩
      · rintro h ⟨p, hp, hkp⟩
        exact h ⟨p, List.mem_cons_of_mem _ hp, hkp⟩

theorem matrixKeysLowerFixed (m : Bool) :
    ∀ p ∈ conversionMatrix m, lowerString p.1 = p.1 := by
  cases m <;> decide

theorem matrixValuesNonNil (m : Bool) :
    ∀ p ∈ conversionMatrix m, p.2 ≠ [] := by
  cases m <;> decide

theorem matrixLookupSelf (m : Bool) :
    ∀ p ∈ conversionMatrix m, (conversionMatrix m).lookup (lowerString p.1) = some p.2 := by
  cases m <;> decide

/-- C2: `get_supported_conversions e` is empty iff `e` is not, case-insensitively,
one of the registered source extensions of the capability table, and on each
registered extension it returns exactly the table's target list. -/
theorem c2_conversions_for_spec (m : Bool) (e : String) :
    (getSupportedConversions m e = [] ↔
      ¬ ∃ p ∈ conversionMatrix m, lowerString e = lowerString p.1) ∧
    (∀ p ∈ conversionMatrix m, getSupportedConversions m p.1 = p.2) := by
  constructor
  · have base := lookupGetDNilIff (lowerString e) (conversionMatrix m) (matrixValuesNonNil m)
    rw [getSupportedConversions, base]
    constructor
    · rintro h ⟨p, hp, hlow⟩
      exact h ⟨p, hp, by rw [hlow, matrixKeysLowerFixed m p hp]⟩
    · rintro h ⟨p, hp, hlow⟩
      exact h ⟨p, hp, by rw [hlow, matrixKeysLowerFixed m p hp]⟩
  · intro p hp
    rw [getSupportedConversions, matrixLookupSelf m p hp]
    rfl

theorem c2_witness :
    getSupportedConversions true ".pdf" = ["docx", "txt"] ∧
    getSupportedConversions true ".zip" = [] :=
  ⟨(c2_conversions_for_spec true ".pdf").2 (".pdf", ["docx", "txt"]) (by decide),
   (c2_conversions_for_spec true ".zip").1.mpr (by decide)⟩

/-- C1 counterexample: the pair (jpg, jpg) is absent from the capability table
(`conversions_for('.jpg') = [png, webp]`), yet `convert_file` routes it to
`_convert_image` and even returns an output path, instead of failing with the
unsupported-pair signal. -/
theorem c1_counterexample :
    ("jpg" ∉ getSupportedConversions true ".jpg") ∧
    (convertFile allOk [] "temp/input_a.jpg" "jpg" "jpg").invoked = [Route.imageRoute] ∧
    (convertFile allOk [] "temp/input_a.jpg" "jpg" "jpg").output
      = some "temp/input_a_converted.jpg" := by decide

/-- C1 amended: every pair of the capability table is accepted by the dispatch
chain, and whenever the chain selects no family (`route = none`) `convert_file`
returns `None` without invoking any conversion routine; but the accepted set is
a strict superset of the table — same-format image and audio pairs such as
(jpg, jpg) are also routed to an external conversion routine. -/
theorem c1_amended :
    (∀ m : Bool, ∀ p ∈ conversionMatrix m, ∀ t ∈ p.2, (route (p.1.drop 1) t).isSome) ∧
    (∀ (e : ConvEnv) (fs : List String) (input s t : String),
      route s t = none → convertFile e fs input s t = ⟨none, fs, []⟩) := by
  constructor
  · intro m
    cases m <;> decide
  · intro e fs input s t h
    simp [convertFile, h]

theorem c1_amended_witness :
    (route "pdf" "docx").isSome ∧
    convertFile allOk [] "somefile" "pdf" "png" = ⟨none, [], []⟩ :=
  ⟨c1_amended.1 true (".pdf", ["docx", "txt"]) (by decide) "docx" (by decide),
   c1_amended.2 allOk [] "somefile" "pdf" "png" (by decide)⟩

theorem finishCheckMem (fs : List String) (o p : String)
    (h : (finishCheck fs o).1 = some p) : p ∈ (finishCheck fs o).2 := by
  revert h
  unfold finishCheck
  split_ifs with hm <;> intro h
  · injection h with h2
    subst h2
    exact hm
  · exact absurd h (by simp)

theorem convertPdfMem (e : ConvEnv) (fs : List String) (o t p : String)
    (h : (convertPdf e fs o t).1 = some p) : p ∈ (convertPdf e fs o t).2 := by
  revert h
  unfold convertPdf
  split_ifs <;> intro h <;>
    first
      | exact finishCheckMem _ _ _ h
      | exact absurd h (by simp)

theorem convertDocxMem (e : ConvEnv) (fs : List String) (o t p : String)
    (h : (convertDocx e fs o t).1 = some p) : p ∈ (convertDocx e fs o t).2 := by
  revert h
  unfold convertDocx
  split_ifs <;> intro h <;>
    first
      | exact finishCheckMem _ _ _ h
      | exact absurd h (by simp)

theorem convertTxtToDocxMem (e : ConvEnv) (fs : List String) (o p : String)
    (h : (convertTxtToDocx e fs o).1 = some p) : p ∈ (convertTxtToDocx e fs o).2 := by
  revert h
  unfold convertTxtToDocx
  split_ifs <;> intro h <;>
    first
      | exact finishCheckMem _ _ _ h
      | exact absurd h (by simp)

theorem convertImageMem (e : ConvEnv) (fs : List String) (o p : String)
    (h : (convertImage e fs o).1 = some p) : p ∈ (convertImage e fs o).2 := by
  revert h
  unfold convertImage
  split_ifs <;> intro h <;>
    first
      | exact finishCheckMem _ _ _ h
      | exact absurd h (by simp)

theorem convertAudioMem (e : ConvEnv) (fs : List String) (o t p : String)
    (h : (convertAudio e fs o t).1 = some p) : p ∈ (convertAudio e fs o t).2 := by
  revert h
  unfold convertAudio
  split_ifs <;> intro h <;>
    first
      | exact finishCheckMem _ _ _ h
      | exact absurd h (by simp)

theorem convertVideoToAudioMem (e : ConvEnv) (fs : List String) (o p : String)
    (h : (convertVideoToAudio e fs o).1 = some p) : p ∈ (convertVideoToAudio e fs o).2 := by
  revert h
  unfold convertVideoToAudio
  split_ifs <;> intro h <;>
    first
      | exact finishCheckMem _ _ _ h
      | exact absurd h (by simp)

theorem runRouteMem (e : ConvEnv) (r : Route) (fs : List String) (o t p : String)
    (h : (runRoute e r fs o t).1 = some p) : p ∈ (runRoute e r fs o t).2 := by
  cases r
  · exact convertPdfMem e fs o t p h
  · exact convertDocxMem e fs o t p h
  · exact convertTxtToDocxMem e fs o p h
  · exact convertImageMem e fs o p h
  · exact convertAudioMem e fs o t p h
  · exact convertVideoToAudioMem e fs o p h

/-- C9: `convert_file` never propagates an exception (every raising branch is
caught and mapped to `None` in the embedding), and whenever it returns a path
that path exists on disk at return time. -/
theorem c9_output_exists (e : ConvEnv) (fs : List String) (input s t p : String)
    (h : (convertFile e fs input s t).output = some p) :
    p ∈ (convertFile e fs input s t).fs := by
  revert h
  unfold convertFile
  cases hr : route s t with
  | none => intro h; exact absurd h (by simp)
  | some r =>
    intro h
    exact runRouteMem e r fs (outputPathFor input t) t p h

theorem c9_witness :
    (convertFile allOk [] "temp/input_a.txt" "txt" "docx").output
      = some "temp/input_a_converted.docx" ∧
    "temp/input_a_converted.docx" ∈ (convertFile allOk [] "temp/input_a.txt" "txt" "docx").fs :=
  ⟨by decide,
   c9_output_exists allOk [] "temp/input_a.txt" "txt" "docx" "temp/input_a_converted.docx"
     (by decide)⟩

theorem routePdfTargets {s t : String} (h : route s t = some Route.pdfRoute) :
    t = "docx" ∨ t = "txt" := by
  unfold route at h
  split_ifs at h <;> simp_all

theorem routeDocxTargets {s t : String} (h : route s t = some Route.docxRoute) :
    t = "pdf" ∨ t = "txt" := by
  unfold route at h
  split_ifs at h <;> simp_all

theorem routeTxtTargets {s t : String} (h : route s t = some Route.txtDocxRoute) :
    t = "docx" := by
  unfold route at h
  split_ifs at h <;> simp_all

theorem routeAudioTargets {s t : String} (h : route s t = some Route.audioRoute) :
    t = "mp3" ∨ t = "wav" ∨ t = "ogg" := by
  unfold route at h
  split_ifs at h <;> simp_all

theorem memEraseConsCons (a b : String) (l : List String) : a ∈ (a :: b :: l).erase b := by
  by_cases hab : a = b
  · subst hab
    rw [List.erase_cons_head]
    exact List.mem_cons_self _ _
  · rw [List.erase_cons_tail, List.erase_cons_head]
    · exact List.mem_cons_self _ _
    · simpa using hab

theorem convertFileAllOkSucceeds (fs : List String) (input s t : String) (r : Route)
    (hr : route s t = some r) :
    (convertFile allOk fs input s t).output = some (outputPathFor input t) := by
  unfold convertFile
  rw [hr]
  cases r with
  | pdfRoute =>
    rcases routePdfTargets hr with rfl | rfl
    · simp +decide [runRoute, convertPdf, allOk, finishCheck]
    · simp only [runRoute, convertPdf, allOk, if_true]
      unfold finishCheck
      rw [if_pos (memEraseConsCons _ _ _), if_neg (by decide)]
  | docxRoute =>
    rcases routeDocxTargets hr with rfl | rfl <;>
      simp +decide [runRoute, convertDocx, allOk, finishCheck]
  | txtDocxRoute =>
    rcases routeTxtTargets hr with rfl
    simp +decide [runRoute, convertTxtToDocx, allOk, finishCheck]
  | imageRoute =>
    simp +decide [runRoute, convertImage, allOk, finishCheck]
  | audioRoute =>
    rcases routeAudioTargets hr with rfl | rfl | rfl <;>
      simp +decide [runRoute, convertAudio, allOk, finishCheck]
  | videoRoute =>
    simp +decide [runRoute, convertVideoToAudio, allOk, finishCheck]

/-- C8 counterexample: repeating the identical conversion call reuses exactly
the same deterministic temp file name — the second call's output path equals
the first call's, refuting the claimed distinct-names-per-call behaviour. -/
theorem c8_counterexample :
    (convertFile allOk [] "temp/input_abc.pdf" "pdf" "docx").output
      = (convertFile allOk (convertFile allOk [] "temp/input_abc.pdf" "pdf" "docx").fs
          "temp/input_abc.pdf" "pdf" "docx").output ∧
    (convertFile allOk [] "temp/input_abc.pdf" "pdf" "docx").output
      = some "temp/input_abc_converted.docx" := by decide

/-- C8 amended: converting the same valid input through the same routed pair
twice succeeds both times, the dispatcher raising no error on the reuse of the
file names; but the temp names are deterministic in the input name and target
format, so the second call reuses (overwrites) exactly the same output path
rather than using distinct names. -/
theorem c8_amended (fs : List String) (input s t : String)
    (hr : (route s t).isSome) :
    (convertFile allOk fs input s t).output = some (outputPathFor input t) ∧
    (convertFile allOk (convertFile allOk fs input s t).fs input s t).output
      = some (outputPathFor input t) := by
  obtain ⟨r, hr2⟩ := Option.isSome_iff_exists.mp hr
  exact ⟨convertFileAllOkSucceeds fs input s t r hr2,
         convertFileAllOkSucceeds _ input s t r hr2⟩

theorem c8_amended_witness :
    (route "pdf" "txt").isSome ∧
    (convertFile allOk [] "temp/input_abc.pdf" "pdf" "txt").output
      = some (outputPathFor "temp/input_abc.pdf" "txt") ∧
    (convertFile allOk (convertFile allOk [] "temp/input_abc.pdf" "pdf" "txt").fs
        "temp/input_abc.pdf" "pdf" "txt").output
      = some (outputPathFor "temp/input_abc.pdf" "txt") :=
  ⟨by decide,
   (c8_amended [] "temp/input_abc.pdf" "pdf" "txt" (by decide)).1,
   (c8_amended [] "temp/input_abc.pdf" "pdf" "txt" (by decide)).2⟩

/-- C3: evaluation of the `/start` flow at the scenario's input.  The first
`/start` of a fresh user shows the language prompt with exactly three options,
and pressing `lang_en` stores the preference and renders the main menu — but a
subsequent `/start` shows the language prompt again, because the
`language_ever_set` flag that `start` consults is never written anywhere in
the code, contradicting the specified scenario. -/
theorem c3_start_flow_eval :
    startHandler freshUser = Reply.langPrompt langButtons ∧
    langButtons.length = 3 ∧
    (handleLangCallback freshUser "lang_en").1.language = some "en" ∧
    (handleLangCallback freshUser "lang_en").2 = Reply.mainMenu "en" menuButtons ∧
    startHandler (handleLangCallback freshUser "lang_en").1 = Reply.langPrompt langButtons := by
  decide

/-- C4 counterexample: on successful completion `user_data.clear()` also erases
the stored language preference (it does not persist), and on the
conversion-failed path the transient fields are not cleared at all. -/
theorem c4_counterexample :
    (handleConversionCore ⟨true, true, true, true⟩ sessionBefore "abc" "pdf" "docx").userData.language
      = none ∧
    (handleConversionCore ⟨true, true, false, true⟩ sessionBefore "abc" "pdf" "docx").userData
      = sessionBefore := by decide

/-- C4 amended: on successful completion the handler clears the entire session
— transient fields and the language preference alike — while on every failure
path (get-file, download, conversion, delivery) the session is left unchanged,
transient fields included. -/
theorem c4_amended (e : BotEnv) (u : UserData) (fileId s t : String) :
    (e = ⟨true, true, true, true⟩ →
      (handleConversionCore e u fileId s t).userData = clearedUserData) ∧
    (e.getFileOk = false → (handleConversionCore e u fileId s t).userData = u) ∧
    (e.downloadOk = false → (handleConversionCore e u fileId s t).userData = u) ∧
    (e.convertOutput = false → (handleConversionCore e u fileId s t).userData = u) ∧
    (e.deliverOk = false → (handleConversionCore e u fileId s t).userData = u) ∧
    clearedUserData.language = none := by
  obtain ⟨g, d, c, dv⟩ := e
  cases g <;> cases d <;> cases c <;> cases dv <;>
    simp [handleConversionCore, clearedUserData]

theorem c4_amended_witness :
    (handleConversionCore ⟨true, true, true, true⟩ sessionBefore "f1" "pdf" "docx").userData
      = clearedUserData :=
  (c4_amended ⟨true, true, true, true⟩ sessionBefore "f1" "pdf" "docx").1 rfl

/-- C5 counterexample: on the failure path where `convert_file` returns no
output, the handler returns after notifying the user without attempting any
cleanup, leaving the downloaded input temp file it created on disk. -/
theorem c5_counterexample :
    (handleConversionCore ⟨true, true, false, true⟩ freshUser "abc" "pdf" "docx").created
      = ["temp/input_abc.pdf"] ∧
    (handleConversionCore ⟨true, true, false, true⟩ freshUser "abc" "pdf" "docx").cleaned
      = [] := by decide

/-- C5 amended: no exception escapes the handler, and on the exception failure
paths (download failure, delivery failure) cleanup of the temp files the
handler created is attempted before returning; but on the
conversion-returned-no-output path the handler returns without cleaning up the
downloaded input temp file. -/
theorem c5_amended (e : BotEnv) (u : UserData) (fileId s t : String) :
    (handleConversionCore e u fileId s t).escaped = false ∧
    (e.getFileOk = true → e.downloadOk = false →
      (handleConversionCore e u fileId s t).created = [] ∧
      (handleConversionCore e u fileId s t).cleaned = [inputPathFor fileId s]) ∧
    (e.getFileOk = true → e.downloadOk = true → e.convertOutput = true → e.deliverOk = false →
      (handleConversionCore e u fileId s t).created
        ⊆ (handleConversionCore e u fileId s t).cleaned) ∧
    (e.getFileOk = true → e.downloadOk = true → e.convertOutput = false →
      (handleConversionCore e u fileId s t).created = [inputPathFor fileId s] ∧
      (handleConversionCore e u fileId s t).cleaned = []) := by
  obtain ⟨g, d, c, dv⟩ := e
  cases g <;> cases d <;> cases c <;> cases dv <;>
    simp [handleConversionCore]

theorem c5_amended_witness :
    (handleConversionCore ⟨true, true, true, false⟩ freshUser "f2" "pdf" "docx").escaped = false ∧
    (handleConversionCore ⟨true, true, true, false⟩ freshUser "f2" "pdf" "docx").created
      ⊆ (handleConversionCore ⟨true, true, true, false⟩ freshUser "f2" "pdf" "docx").cleaned :=
  ⟨(c5_amended ⟨true, true, true, false⟩ freshUser "f2" "pdf" "docx").1,
   (c5_amended ⟨true, true, true, false⟩ freshUser "f2" "pdf" "docx").2.2.1 rfl rfl rfl rfl⟩

/-- C6 counterexample: when the pdf-to-docx first stage succeeds but the text
extraction stage fails, `_convert_pdf` returns `None` while the intermediate
docx artifact is left on disk — it is not deleted on this exit path. -/
theorem c6_counterexample :
    (convertPdf ⟨true, false, true, true, true, true, true, true⟩ []
        "temp/input_abc_converted.txt" "txt").1 = none ∧
    "temp/input_abc_converted_temp.docx" ∈
      (convertPdf ⟨true, false, true, true, true, true, true, true⟩ []
        "temp/input_abc_converted.txt" "txt").2 := by decide

/-- C6 amended: the pdf-to-txt conversion is the two-stage pipeline producing
the intermediate `_temp.docx`, which is deleted when both stages succeed; but
when the extraction stage fails after the intermediate was created, the
function returns `None` and the intermediate artifact remains on disk. -/
theorem c6_amended (e : ConvEnv) (fs : List String) (output : String)
    (htd : replaceStr output ".txt" "_temp.docx" ∉ fs)
    (hne : replaceStr output ".txt" "_temp.docx" ≠ output) :
    (e.pdfConvertOk = true → e.docxReadOk = true →
      convertPdf e fs output "txt" = (some output, output :: fs) ∧
      replaceStr output ".txt" "_temp.docx" ∉ (convertPdf e fs output "txt").2) ∧
    (e.pdfConvertOk = true → e.docxReadOk = false →
      (convertPdf e fs output "txt").1 = none ∧
      replaceStr output ".txt" "_temp.docx" ∈ (convertPdf e fs output "txt").2) := by
  have herase : (output :: replaceStr output ".txt" "_temp.docx" :: fs).erase
      (replaceStr output ".txt" "_temp.docx") = output :: fs := by
    rw [List.erase_cons_tail, List.erase_cons_head]
    simpa using Ne.symm hne
  constructor
  · intro hp hd
    rw [convertPdf, if_neg (by decide), if_pos rfl, hp, hd]
    simp only [if_true, herase]
    constructor
    · unfold finishCheck
      rw [if_pos (List.mem_cons_self _ _)]
    · intro hmem
      rcases List.mem_cons.mp hmem with h | h
      · exact hne h
      · exact htd h
  · intro hp hd
    rw [convertPdf, if_neg (by decide), if_pos rfl, hp, hd]
    constructor
    · rfl
    · exact List.mem_cons_self _ _

theorem c6_amended_witness :
    convertPdf allOk [] "temp/input_abc_converted.txt" "txt"
      = (some "temp/input_abc_converted.txt", ["temp/input_abc_converted.txt"]) ∧
    replaceStr "temp/input_abc_converted.txt" ".txt" "_temp.docx" ∉
      (convertPdf allOk [] "temp/input_abc_converted.txt" "txt").2 :=
  (c6_amended allOk [] "temp/input_abc_converted.txt" (by decide) (by decide)).1 rfl rfl

/-- C7 counterexample: an `LA`-mode input carries transparency and a jpg target
flattens it onto the white background, but the paste mask is `None` rather
than the image's alpha channel (`img.split()[-1]` is used only for `RGBA`). -/
theorem c7_counterexample :
    carriesTransparency ImgMode.la = true ∧
    (convertImagePlan ImgMode.la "jpg").flattenedOnWhite = true ∧
    (convertImagePlan ImgMode.la "jpg").alphaMaskUsed = false := by decide

/-- C7 amended: for jpg/jpeg targets, `RGBA` inputs and palette inputs
(converted to `RGBA` first) are composited onto the white background with the
alpha channel as the blend mask; `LA` inputs are flattened onto white without
an alpha mask; png and webp targets are saved without flattening, in the
upper-cased target format. -/
theorem c7_amended (t : String) (m : ImgMode) :
    ((t = "jpg" ∨ t = "jpeg") → (m = .rgba ∨ m = .pal) →
      (convertImagePlan m t).flattenedOnWhite = true ∧
      (convertImagePlan m t).alphaMaskUsed = true) ∧
    ((t = "jpg" ∨ t = "jpeg") → m = .la →
      (convertImagePlan m t).flattenedOnWhite = true ∧
      (convertImagePlan m t).alphaMaskUsed = false) ∧
    ((t = "png" ∨ t = "webp") →
      (convertImagePlan m t).flattenedOnWhite = false ∧
      (convertImagePlan m t).saveFormat = upperString t) := by
  refine ⟨?_, ?_, ?_⟩
  · rintro (rfl | rfl) (rfl | rfl) <;> decide
  · rintro (rfl | rfl) rfl <;> decide
  · rintro (rfl | rfl) <;> cases m <;> decide

theorem c7_amended_witness :
    (convertImagePlan ImgMode.rgba "jpg").flattenedOnWhite = true ∧
    (convertImagePlan ImgMode.rgba "jpg").alphaMaskUsed = true ∧
    (convertImagePlan ImgMode.rgba "webp").flattenedOnWhite = false :=
  ⟨((c7_amended "jpg" ImgMode.rgba).1 (Or.inl rfl) (Or.inl rfl)).1,
   ((c7_amended "jpg" ImgMode.rgba).1 (Or.inl rfl) (Or.inl rfl)).2,
   ((c7_amended "webp" ImgMode.rgba).2.2 (Or.inr rfl)).1⟩

/-- C10: `set_user_language` leaves the session unchanged for a code outside
the supported set, so a stored language preference, whenever present, is
always one of uz, en, ru. -/
theorem c10_language_invariant (u : UserData) (lang : String) :
    (lang ∉ supportedLangs → setUserLanguage u lang = u) ∧
    ((∀ l, getUserLanguage u = some l → l ∈ supportedLangs) →
      ∀ l, getUserLanguage (setUserLanguage u lang) = some l → l ∈ supportedLangs) := by
  constructor
  · intro h
    simp [setUserLanguage, h]
  · intro hinv l hl
    revert hl
    unfold setUserLanguage
    split_ifs with hs <;> intro hl
    · simp only [getUserLanguage] at hl
      injection hl with h2
      subst h2
      exact hs
    · exact hinv l hl

theorem c10_witness :
    ("fr" ∉ supportedLangs) ∧ setUserLanguage freshUser "fr" = freshUser :=
  ⟨by decide, (c10_language_invariant freshUser "fr").1 (by decide)⟩
